import Mathlib

/-!
Verification of the medicine-request matching engine of meditatva-connect-ai.

Shallow embedding of:
- the Mongoose `MedicineRequest` schema, its `pre('save')` middleware and the
  instance methods `addResponse` / `acceptPharmacy`;
- the `MedicineRequestController` handlers `respondToRequest`, `acceptPharmacy`
  and `updateRequestStatus`, plus the `calculateDistance` helper;
- the `validateMedicineRequest` Express middleware.

Object ids are modelled as `ℕ`, timestamps as `ℤ` (milliseconds), and monetary
values as `ℚ` (the spec demands exact price equations, so prices are embedded
as exact rationals).  Fallible handlers return `Except ReqError`.
-/

namespace Meditatva

/-- Typed failures of the controller operations, named after the error
taxonomy of the spec; each constructor corresponds to one reason string
returned by the JS controller. -/
inductive ReqError where
  | DuplicateResponse   -- "Pharmacy has already responded to this request"
  | RequestClosed       -- "This request is no longer accepting responses"
  | ResponseNotFound    -- "Pharmacy response not found"
  | Unauthorized        -- 403 authorization failures
  deriving DecidableEq, Repr

/-- The `status` enum of the `medicineRequestSchema`. -/
inductive Status where
  | open_
  | accepted
  | preparing
  | ready
  | completed
  | cancelled
  | expired
  deriving DecidableEq, Repr

/-- One entry of `req.body.availableMedicines` as used by
`respondToRequest`: the availability flag and the (possibly absent) price.
`price = none` models an absent field. -/
structure AvailableMedicine where
  available : Bool
  price : Option ℚ
  deriving DecidableEq, Repr

/-- JavaScript truthiness of an optional numeric field: `undefined` and `0`
are falsy, every other number is truthy. -/
def jsTruthy : Option ℚ → Bool
  | none => false
  | some p => p ≠ 0

/-- One element of the `responses` array of a `MedicineRequest` document
(the fields the lifecycle logic reads or writes). -/
structure Response where
  pharmacy : ℕ
  totalPrice : ℚ
  discount : ℚ
  finalPrice : ℚ
  isActive : Bool
  deriving DecidableEq, Repr

/-- The payload a caller of `addResponse` supplies (`responseData` in the JS
method); `pharmacy` and the `isActive` default are added by `addResponse`
itself. -/
structure ResponseData where
  totalPrice : ℚ
  discount : ℚ
  finalPrice : ℚ
  deriving DecidableEq, Repr

/-- The `acceptedPharmacy` subdocument. -/
structure AcceptedPharmacy where
  pharmacy : ℕ
  acceptedAt : ℤ
  deriving DecidableEq, Repr

/-- A `MedicineRequest` document: the fields the matching engine's
lifecycle operations touch. `responseCount` is `analytics.responseCount`. -/
structure MedicineRequest where
  patient : ℕ
  status : Status
  responses : List Response
  acceptedPharmacy : Option AcceptedPharmacy
  expiresAt : ℤ
  responseCount : ℕ
  deriving DecidableEq, Repr

/-- The body of the `forEach` in the `pre('save')` middleware: recompute one
response's `finalPrice` from its `totalPrice` and `discount`. -/
def recomputeFinalPrice (resp : Response) : Response :=
  if resp.discount > 0 then
    { resp with finalPrice := resp.totalPrice - resp.totalPrice * resp.discount / 100 }
  else
    { resp with finalPrice := resp.totalPrice }

/-- The `pre('save')` middleware of `medicineRequestSchema`: auto-expire a
still-open request whose `expiresAt` has passed, then recompute each
response's `finalPrice` from its `totalPrice` and `discount`. -/
def preSave (now : ℤ) (r : MedicineRequest) : MedicineRequest :=
  let r' :=
    if r.status = Status.open_ ∧ r.expiresAt < now then
      { r with status := Status.expired }
    else r
  { r' with responses := r'.responses.map recomputeFinalPrice }

/-- Instance method `medicineRequestSchema.methods.addResponse`: reject a
pharmacy that already has a response, otherwise push a new response (with
the schema default `isActive = true`), bump `analytics.responseCount` and
save (which runs `preSave`). -/
def addResponse (now : ℤ) (pharmacyId : ℕ) (rd : ResponseData)
    (r : MedicineRequest) : Except ReqError MedicineRequest :=
  if r.responses.any (fun resp => resp.pharmacy = pharmacyId) then
    Except.error ReqError.DuplicateResponse
  else
    Except.ok (preSave now
      { r with
        responses := r.responses ++
          [{ pharmacy := pharmacyId
             totalPrice := rd.totalPrice
             discount := rd.discount
             finalPrice := rd.finalPrice
             isActive := true }]
        responseCount := r.responseCount + 1 })

/-- The per-response total of `respondToRequest`: sum the prices of the
medicines marked available whose price field is truthy. -/
def computeTotalPrice (meds : List AvailableMedicine) : ℚ :=
  meds.foldl (fun acc m =>
    if m.available && jsTruthy m.price then acc + m.price.getD 0 else acc) 0

/-- Controller handler `respondToRequest` (role and existence checks of the
HTTP layer aside): refuse a non-open request with `RequestClosed`, otherwise
compute `totalPrice`, the 5% discount for totals above 1000, and
`finalPrice`, and delegate to `addResponse`. -/
def respondToRequest (now : ℤ) (pharmacyId : ℕ)
    (availableMedicines : List AvailableMedicine)
    (r : MedicineRequest) : Except ReqError MedicineRequest :=
  if r.status ≠ Status.open_ then
    Except.error ReqError.RequestClosed
  else
    let totalPrice := computeTotalPrice availableMedicines
    let discount : ℚ := if totalPrice > 1000 then 5 else 0
    let finalPrice := totalPrice - totalPrice * discount / 100
    addResponse now pharmacyId
      { totalPrice := totalPrice, discount := discount, finalPrice := finalPrice } r

/-- The body of the `forEach` of `acceptPharmacy`: deactivate a response
unless it belongs to the chosen pharmacy. -/
def deactivateUnless (pharmacyId : ℕ) (resp : Response) : Response :=
  if resp.pharmacy ≠ pharmacyId then { resp with isActive := false } else resp

/-- Instance method `medicineRequestSchema.methods.acceptPharmacy`: require
an existing response from `pharmacyId`; set `status = accepted`, record
`acceptedPharmacy`, set `isActive = false` on every other response, and
save (running `preSave`). -/
def acceptPharmacyMethod (now : ℤ) (pharmacyId : ℕ)
    (r : MedicineRequest) : Except ReqError MedicineRequest :=
  if r.responses.any (fun resp => resp.pharmacy = pharmacyId) then
    Except.ok (preSave now
      { r with
        status := Status.accepted
        acceptedPharmacy := some { pharmacy := pharmacyId, acceptedAt := now }
        responses := r.responses.map (deactivateUnless pharmacyId) })
  else
    Except.error ReqError.ResponseNotFound

/-- Result of the controller-level `acceptPharmacy`: the saved request and
the list of pharmacy ids the handler sends a `request_closed` event to. -/
structure AcceptResult where
  request : MedicineRequest
  notifiedClosed : List ℕ
  deriving DecidableEq, Repr

/-- Controller handler `acceptPharmacy`: authorization (only the owning
patient), the open check, then the model method; afterwards the handler
computes `otherPharmacies` — the responses of the **already mutated**
request whose pharmacy differs from the chosen one and that are still
`isActive` — and notifies each with `request_closed`. -/
def acceptPharmacyController (now : ℤ) (userId : ℕ) (pharmacyId : ℕ)
    (r : MedicineRequest) : Except ReqError AcceptResult :=
  if r.patient ≠ userId then
    Except.error ReqError.Unauthorized
  else if r.status ≠ Status.open_ then
    Except.error ReqError.RequestClosed
  else
    match acceptPharmacyMethod now pharmacyId r with
    | Except.error e => Except.error e
    | Except.ok r2 =>
        let otherPharmacies :=
          (r2.responses.filter (fun resp => resp.pharmacy ≠ pharmacyId ∧ resp.isActive)).map
            (fun resp => resp.pharmacy)
        Except.ok { request := r2, notifiedClosed := otherPharmacies }

/-- The optional-chaining check
`request.acceptedPharmacy?.pharmacy?._id.toString() === req.user._id.toString()`. -/
def acceptedPharmacyIs (ap : Option AcceptedPharmacy) (userId : ℕ) : Bool :=
  match ap with
  | some a => a.pharmacy = userId
  | none => false

/-- Controller handler `updateRequestStatus`: authorization (patient or the
accepted pharmacy), then set the requested status unconditionally and save
(running `preSave`). The source performs no transition validation. -/
def updateRequestStatus (now : ℤ) (userId : ℕ) (newStatus : Status)
    (r : MedicineRequest) : Except ReqError MedicineRequest :=
  let isPatient : Bool := r.patient = userId
  let isAcceptedPharmacy : Bool := acceptedPharmacyIs r.acceptedPharmacy userId
  if !isPatient && !isAcceptedPharmacy then
    Except.error ReqError.Unauthorized
  else
    Except.ok (preSave now { r with status := newStatus })

/-- One mutating operation of the lifecycle API, used to describe the
reachable states of a request. -/
inductive Op where
  | submit (pharmacyId : ℕ) (availableMedicines : List AvailableMedicine)
  | accept (userId : ℕ) (pharmacyId : ℕ)
  | setStatus (userId : ℕ) (newStatus : Status)
  deriving Repr

/-- Apply one operation; a failed operation leaves the request unchanged
(the controller returns an error response without mutating the document). -/
def applyOp (now : ℤ) (op : Op) (r : MedicineRequest) : MedicineRequest :=
  match op with
  | Op.submit pid meds =>
      match respondToRequest now pid meds r with
      | Except.ok r' => r'
      | Except.error _ => r
  | Op.accept uid pid =>
      match acceptPharmacyController now uid pid r with
      | Except.ok res => res.request
      | Except.error _ => r
  | Op.setStatus uid s =>
      match updateRequestStatus now uid s r with
      | Except.ok r' => r'
      | Except.error _ => r

/-- Apply a sequence of operations in order. -/
def runOps (now : ℤ) (ops : List Op) (r : MedicineRequest) : MedicineRequest :=
  ops.foldl (fun st op => applyOp now op st) r

/-- A freshly created request as `createRequest` builds it: status `open`,
no responses, no accepted pharmacy. -/
def mkRequest (patient : ℕ) (expiresAt : ℤ) : MedicineRequest :=
  { patient := patient
    status := Status.open_
    responses := []
    acceptedPharmacy := none
    expiresAt := expiresAt
    responseCount := 0 }

/-- The pharmacy ids of a request's responses, in order. -/
def responsePharmacies (r : MedicineRequest) : List ℕ :=
  r.responses.map (fun resp => resp.pharmacy)

/-- The single-acceptance invariant exactly as the spec states it: whenever
`status ≠ open`, exactly one response is `isActive` and its pharmacy is the
recorded accepted one. -/
def singleAcceptanceInv (r : MedicineRequest) : Prop :=
  r.status ≠ Status.open_ →
    (r.responses.filter (fun resp => resp.isActive)).length = 1 ∧
    ∃ ap, r.acceptedPharmacy = some ap ∧
      ∀ resp ∈ r.responses, resp.isActive → resp.pharmacy = ap.pharmacy

instance (r : MedicineRequest) : Decidable (singleAcceptanceInv r) := by
  unfold singleAcceptanceInv
  infer_instance

/-- The price-determinism relation of the spec:
`finalPrice = totalPrice * (1 - discount/100)`. -/
def priceCoherent (resp : Response) : Prop :=
  resp.finalPrice = resp.totalPrice * (1 - resp.discount / 100)

/-- The allowed status edges, written from the spec's state machine (this
definition follows the spec's words, for comparison with the code's
behaviour; the source controller contains no such check). -/
def specAllowedTransition : Status → Status → Prop
  | Status.open_, Status.accepted => True
  | Status.open_, Status.expired => True
  | Status.open_, Status.cancelled => True
  | Status.accepted, Status.preparing => True
  | Status.preparing, Status.ready => True
  | Status.ready, Status.completed => True
  | Status.accepted, Status.cancelled => True
  | Status.preparing, Status.cancelled => True
  | Status.ready, Status.cancelled => True
  | _, _ => False

instance (a b : Status) : Decidable (specAllowedTransition a b) := by
  unfold specAllowedTransition
  cases a <;> cases b <;> simp <;> infer_instance

/-- One medicine entry of a create-request body, as read by the validation
middleware (`name` truthy means non-empty; `quantity` is numeric, with `0`
falsy). -/
structure MedicineInput where
  name : String
  quantity : ℚ
  deriving DecidableEq, Repr

/-- The location object of a create-request body; `none` fields model
absent properties. -/
structure LocationInput where
  latitude : Option ℚ
  longitude : Option ℚ
  deriving DecidableEq, Repr

/-- A create-request body as `validateMedicineRequest` sees it. -/
structure RequestBody where
  medicines : List MedicineInput
  location : Option LocationInput
  deriving DecidableEq, Repr

/-- Outcome of the validation middleware: `ok` means `next()` was called;
each error constructor is one of the middleware's 400 responses. -/
inductive ValidationResult where
  | ok
  | errMedicinesRequired   -- "At least one medicine is required"
  | errMedicineInvalid     -- "Each medicine must have a name and valid quantity"
  | errLocationRequired    -- "Location (latitude and longitude) is required"
  deriving DecidableEq, Repr

/-- The Express middleware `validateMedicineRequest`, with JavaScript
truthiness made explicit: `!medicines.length`, `!medicine.name`,
`!medicine.quantity`, `!location.latitude`, `!location.longitude` are the
source's falsiness checks (`0` and the empty string are falsy). -/
def validateMedicineRequest (body : RequestBody) : ValidationResult :=
  if body.medicines.isEmpty then
    ValidationResult.errMedicinesRequired
  else if body.medicines.any (fun m => m.name = "" || m.quantity = 0 || m.quantity ≤ 0) then
    ValidationResult.errMedicineInvalid
  else
    match body.location with
    | none => ValidationResult.errLocationRequired
    | some loc =>
        if !jsTruthy loc.latitude || !jsTruthy loc.longitude then
          ValidationResult.errLocationRequired
        else
          ValidationResult.ok

open Real in
/-- JavaScript's `Math.atan2`, on the real numbers. -/
noncomputable def jsAtan2 (y x : ℝ) : ℝ :=
  if 0 < x then arctan (y / x)
  else if x = 0 then
    if 0 < y then π / 2
    else if y < 0 then -(π / 2)
    else 0
  else
    if 0 ≤ y then arctan (y / x) + π
    else arctan (y / x) - π

open Real in
/-- The controller helper `calculateDistance`: haversine great-circle
distance in kilometers with Earth radius `R = 6371`. -/
noncomputable def calculateDistance (lat1 lon1 lat2 lon2 : ℝ) : ℝ :=
  let R : ℝ := 6371
  let dLat := (lat2 - lat1) * π / 180
  let dLon := (lon2 - lon1) * π / 180
  let a := sin (dLat / 2) * sin (dLat / 2) +
    cos (lat1 * π / 180) * cos (lat2 * π / 180) * sin (dLon / 2) * sin (dLon / 2)
  let c := 2 * jsAtan2 (Real.sqrt a) (Real.sqrt (1 - a))
  R * c

/-- `Math.round(distance * 100) / 100`, the 2-decimal rounding applied to
the distance shown to callers (`Math.round` rounds half away from zero
towards `+∞`, matching Mathlib's `round`). -/
noncomputable def shownDistance (lat1 lon1 lat2 lon2 : ℝ) : ℝ :=
  (round (calculateDistance lat1 lon1 lat2 lon2 * 100) : ℤ) / 100

open Real in
/-- The haversine central angle `c` of `calculateDistance`, so that the
returned distance is the Earth radius 6371 km times this angle. -/
noncomputable def centralAngle (lat1 lon1 lat2 lon2 : ℝ) : ℝ :=
  let dLat := (lat2 - lat1) * π / 180
  let dLon := (lon2 - lon1) * π / 180
  let a := sin (dLat / 2) * sin (dLat / 2) +
    cos (lat1 * π / 180) * cos (lat2 * π / 180) * sin (dLon / 2) * sin (dLon / 2)
  2 * jsAtan2 (Real.sqrt a) (Real.sqrt (1 - a))

/- Concrete fixtures used by the counterexamples and witnesses below. -/

/-- A response from pharmacy 2 with total 1200 (5% discount tier). -/
def respA : Response :=
  { pharmacy := 2, totalPrice := 1200, discount := 5, finalPrice := 1140, isActive := true }

/-- A response from pharmacy 3 with total 900 (no discount). -/
def respB : Response :=
  { pharmacy := 3, totalPrice := 900, discount := 0, finalPrice := 900, isActive := true }

/-- An open request of patient 1 with active responses from pharmacies 2
and 3, not yet expired at time 0. -/
def rOpen : MedicineRequest :=
  { patient := 1, status := Status.open_, responses := [respA, respB],
    acceptedPharmacy := none, expiresAt := 100, responseCount := 2 }

/-- The request `rOpen` after pharmacy 2 was accepted. -/
def rAccepted : MedicineRequest :=
  { patient := 1, status := Status.accepted,
    responses := [respA, { respB with isActive := false }],
    acceptedPharmacy := some { pharmacy := 2, acceptedAt := 0 },
    expiresAt := 100, responseCount := 2 }

/-- A completed request of patient 1. -/
def rCompleted : MedicineRequest :=
  { patient := 1, status := Status.completed, responses := [respA],
    acceptedPharmacy := some { pharmacy := 2, acceptedAt := 0 },
    expiresAt := 100, responseCount := 1 }

/-- Offered medicines totalling 1200. -/
def meds1200 : List AvailableMedicine :=
  [{ available := true, price := some 700 }, { available := true, price := some 500 }]

/-- Offered medicines totalling 900. -/
def meds900 : List AvailableMedicine :=
  [{ available := true, price := some 900 }]

/-- The result of submitting `meds1200` as pharmacy 2 against a fresh
request of patient 1. -/
def req1200 : MedicineRequest :=
  { patient := 1, status := Status.open_,
    responses := [{ pharmacy := 2, totalPrice := 1200, discount := 5,
                    finalPrice := 1140, isActive := true }],
    acceptedPharmacy := none, expiresAt := 100, responseCount := 1 }

/-! Helper lemmas about the save hook and the per-response transformers. -/

@[simp]
lemma recomputeFinalPrice_pharmacy (resp : Response) :
    (recomputeFinalPrice resp).pharmacy = resp.pharmacy := by
  unfold recomputeFinalPrice; split <;> rfl

@[simp]
lemma recomputeFinalPrice_isActive (resp : Response) :
    (recomputeFinalPrice resp).isActive = resp.isActive := by
  unfold recomputeFinalPrice; split <;> rfl

@[simp]
lemma recomputeFinalPrice_discount (resp : Response) :
    (recomputeFinalPrice resp).discount = resp.discount := by
  unfold recomputeFinalPrice; split <;> rfl

@[simp]
lemma recomputeFinalPrice_totalPrice (resp : Response) :
    (recomputeFinalPrice resp).totalPrice = resp.totalPrice := by
  unfold recomputeFinalPrice; split <;> rfl

@[simp]
lemma deactivateUnless_pharmacy (pid : ℕ) (resp : Response) :
    (deactivateUnless pid resp).pharmacy = resp.pharmacy := by
  unfold deactivateUnless; split <;> rfl

lemma deactivateUnless_isActive (pid : ℕ) (resp : Response) :
    (deactivateUnless pid resp).isActive =
      (decide (resp.pharmacy = pid) && resp.isActive) := by
  unfold deactivateUnless
  split
  · next h => simp [h]
  · next h =>
    have hp : resp.pharmacy = pid := by omega
    simp [hp]

@[simp]
lemma preSave_patient (now : ℤ) (r : MedicineRequest) :
    (preSave now r).patient = r.patient := by
  unfold preSave; split <;> rfl

@[simp]
lemma preSave_acceptedPharmacy (now : ℤ) (r : MedicineRequest) :
    (preSave now r).acceptedPharmacy = r.acceptedPharmacy := by
  unfold preSave; split <;> rfl

@[simp]
lemma preSave_expiresAt (now : ℤ) (r : MedicineRequest) :
    (preSave now r).expiresAt = r.expiresAt := by
  unfold preSave; split <;> rfl

@[simp]
lemma preSave_responses (now : ℤ) (r : MedicineRequest) :
    (preSave now r).responses = r.responses.map recomputeFinalPrice := by
  unfold preSave; split <;> rfl

lemma preSave_status (now : ℤ) (r : MedicineRequest) :
    (preSave now r).status =
      if r.status = Status.open_ ∧ r.expiresAt < now then Status.expired
      else r.status := by
  unfold preSave; split <;> simp_all

lemma preSave_status_of_ne_open (now : ℤ) (r : MedicineRequest)
    (h : r.status ≠ Status.open_) : (preSave now r).status = r.status := by
  rw [preSave_status, if_neg (by simp [h])]

lemma map_pharmacy_of_preserve {f : Response → Response}
    (hf : ∀ resp, (f resp).pharmacy = resp.pharmacy) (l : List Response) :
    (l.map f).map (fun resp => resp.pharmacy) =
      l.map (fun resp => resp.pharmacy) := by
  induction l with
  | nil => rfl
  | cons x xs ih => simp [hf, ih]

lemma responsePharmacies_preSave (now : ℤ) (r : MedicineRequest) :
    responsePharmacies (preSave now r) = responsePharmacies r := by
  unfold responsePharmacies
  rw [preSave_responses]
  exact map_pharmacy_of_preserve recomputeFinalPrice_pharmacy _

lemma any_pharmacy_of_mem {pid : ℕ} {r : MedicineRequest}
    (h : pid ∈ responsePharmacies r) :
    r.responses.any (fun resp => resp.pharmacy = pid) = true := by
  rcases List.mem_map.mp h with ⟨resp, hresp, hph⟩
  exact List.any_eq_true.mpr ⟨resp, hresp, by simp [hph]⟩

lemma respondToRequest_ok_pharmacies {now : ℤ} {pid : ℕ}
    {meds : List AvailableMedicine} {r r' : MedicineRequest}
    (hok : respondToRequest now pid meds r = Except.ok r') :
    pid ∉ responsePharmacies r ∧
    responsePharmacies r' = responsePharmacies r ++ [pid] := by
  unfold respondToRequest at hok
  split at hok
  · cases hok
  · unfold addResponse at hok
    split at hok
    · cases hok
    · next hnotany =>
      cases hok
      constructor
      · intro hmem
        rw [any_pharmacy_of_mem hmem] at hnotany
        exact hnotany rfl
      · rw [responsePharmacies_preSave]
        unfold responsePharmacies
        simp

lemma acceptPharmacyController_ok_pharmacies {now : ℤ} {uid pid : ℕ}
    {r : MedicineRequest} {res : AcceptResult}
    (hok : acceptPharmacyController now uid pid r = Except.ok res) :
    responsePharmacies res.request = responsePharmacies r := by
  unfold acceptPharmacyController at hok
  split at hok
  · cases hok
  · split at hok
    · cases hok
    · cases hm : acceptPharmacyMethod now pid r with
      | error e => rw [hm] at hok; cases hok
      | ok r2 =>
        rw [hm] at hok
        cases hok
        unfold acceptPharmacyMethod at hm
        split at hm
        · cases hm
          rw [responsePharmacies_preSave]
          unfold responsePharmacies
          simp only []
          exact map_pharmacy_of_preserve (deactivateUnless_pharmacy pid) _
        · cases hm

lemma updateRequestStatus_ok_pharmacies {now : ℤ} {uid : ℕ} {s : Status}
    {r r' : MedicineRequest}
    (hok : updateRequestStatus now uid s r = Except.ok r') :
    responsePharmacies r' = responsePharmacies r := by
  unfold updateRequestStatus at hok
  dsimp only [] at hok
  split at hok
  · cases hok
  · cases hok
    rw [responsePharmacies_preSave]
    rfl

lemma applyOp_nodup (now : ℤ) (op : Op) (r : MedicineRequest)
    (hnd : (responsePharmacies r).Nodup) :
    (responsePharmacies (applyOp now op r)).Nodup := by
  cases op with
  | submit pid meds =>
    simp only [applyOp]
    cases hres : respondToRequest now pid meds r with
    | error e => exact hnd
    | ok r' =>
      rcases respondToRequest_ok_pharmacies hres with ⟨hnmem, heq⟩
      rw [heq]
      simp [List.nodup_append, hnd, hnmem]
  | accept uid pid =>
    simp only [applyOp]
    cases hres : acceptPharmacyController now uid pid r with
    | error e => exact hnd
    | ok res => rw [acceptPharmacyController_ok_pharmacies hres]; exact hnd
  | setStatus uid s =>
    simp only [applyOp]
    cases hres : updateRequestStatus now uid s r with
    | error e => exact hnd
    | ok r' => rw [updateRequestStatus_ok_pharmacies hres]; exact hnd

/-! Claim theorems. -/

/-- Claim C1. Accepting pharmacy 2 on an open request with active responses
from pharmacies 2 and 3 does set `status = accepted`, record pharmacy 2 as
`acceptedPharmacy` and flip pharmacy 3's response to `isActive = false` —
but the handler's `request_closed` recipient list is computed from the
responses **after** they were deactivated, so it is empty: pharmacy 3
receives no `request_closed` event, contrary to the claim (and to the
handler's own comment). -/
theorem acceptPharmacy_no_closed_notifications :
    acceptPharmacyController 0 1 2 rOpen =
      Except.ok
        { request :=
            { patient := 1, status := Status.accepted
              responses := [respA, { respB with isActive := false }]
              acceptedPharmacy := some { pharmacy := 2, acceptedAt := 0 }
              expiresAt := 100, responseCount := 2 }
          notifiedClosed := [] } := by
  norm_num [acceptPharmacyController, acceptPharmacyMethod, deactivateUnless, preSave,
    recomputeFinalPrice, rOpen, respA, respB]

/-- Claim C4. A request whose status is anything other than `open` rejects
`submitResponse` with `RequestClosed`; no response is appended (the handler
returns the error without touching the document). -/
theorem respondToRequest_nonopen_closed (now : ℤ) (pharmacyId : ℕ)
    (meds : List AvailableMedicine) (r : MedicineRequest)
    (h : r.status ≠ Status.open_) :
    respondToRequest now pharmacyId meds r = Except.error ReqError.RequestClosed := by
  unfold respondToRequest
  rw [if_pos h]

/-- Witness for C4: pharmacy 3 re-submitting against the accepted request
`rAccepted` fails with `RequestClosed`. -/
theorem respondToRequest_nonopen_closed_witness :
    rAccepted.status ≠ Status.open_ ∧
    respondToRequest 0 3 meds900 rAccepted = Except.error ReqError.RequestClosed :=
  ⟨by decide, respondToRequest_nonopen_closed 0 3 meds900 rAccepted (by decide)⟩

/-- Claim C7. A request still stored as `open` whose `expiresAt` already
passed (expiry −1, current time 0) is **not** observed as `expired` on
read, and `submitResponse` against it succeeds: the status check sees the
stored `open`, the response is appended, and only the save hook then flips
the status to `expired` — with the fresh response retained and active,
contrary to the claim's required `RequestClosed` failure. -/
theorem respond_after_expiry_succeeds :
    respondToRequest 0 7 meds900 (mkRequest 1 (-1)) =
      Except.ok
        { patient := 1, status := Status.expired
          responses := [{ pharmacy := 7, totalPrice := 900, discount := 0,
                          finalPrice := 900, isActive := true }]
          acceptedPharmacy := none, expiresAt := -1, responseCount := 1 } := by
  norm_num [respondToRequest, addResponse, preSave, mkRequest, computeTotalPrice,
    meds900, jsTruthy, recomputeFinalPrice]

/-- Claim C3, counterexample. A reachable state violating the
single-acceptance invariant as stated: patient 1 creates a request,
pharmacies 2 and 3 respond, and the patient cancels it. The resulting
status is `cancelled` (≠ open) yet both responses still have
`isActive = true` and no accepted response is recorded. -/
theorem singleAcceptance_counterexample :
    ¬ singleAcceptanceInv
        (runOps 0
          [Op.submit 2 meds1200, Op.submit 3 meds900,
           Op.setStatus 1 Status.cancelled]
          (mkRequest 1 100)) := by
  norm_num [singleAcceptanceInv, runOps, applyOp, respondToRequest, addResponse,
    updateRequestStatus, acceptedPharmacyIs, preSave, mkRequest, computeTotalPrice,
    meds1200, meds900, jsTruthy, recomputeFinalPrice]
  decide

/-- Claim C8, counterexample. `open → completed` is not an allowed edge of
the spec's state machine, yet `updateRequestStatus` performs no transition
validation: the authorized call succeeds and sets the status, instead of
failing with `InvalidTransition` and leaving the status unchanged. -/
theorem updateStatus_transition_counterexample :
    ¬ specAllowedTransition Status.open_ Status.completed ∧
    updateRequestStatus 0 1 Status.completed (mkRequest 1 100) =
      Except.ok { mkRequest 1 100 with status := Status.completed } := by
  exact ⟨by decide, by norm_num [updateRequestStatus, acceptedPharmacyIs, preSave, mkRequest]⟩

/-- Claim C8, amended. `updateRequestStatus` checks only authorization:
an authorized call applies any requested status unconditionally (with the
save hook flipping a requested `open` to `expired` when the TTL already
passed), and an unauthorized call fails with `Unauthorized`. No
`InvalidTransition` failure exists in the handler. -/
theorem updateRequestStatus_unvalidated (now : ℤ) (uid : ℕ) (s : Status)
    (r : MedicineRequest) :
    ((r.patient = uid ∨ ∃ ap, r.acceptedPharmacy = some ap ∧ ap.pharmacy = uid) →
      ∃ r', updateRequestStatus now uid s r = Except.ok r' ∧
        r'.status =
          (if s = Status.open_ ∧ r.expiresAt < now then Status.expired else s)) ∧
    ((r.patient ≠ uid ∧ ∀ ap, r.acceptedPharmacy = some ap → ap.pharmacy ≠ uid) →
      updateRequestStatus now uid s r = Except.error ReqError.Unauthorized) := by
  constructor
  · intro hauth
    refine ⟨preSave now { r with status := s }, ?_, ?_⟩
    · unfold updateRequestStatus
      rcases hauth with h | ⟨ap, hap, hph⟩
      · simp [h]
      · simp [hap, acceptedPharmacyIs, hph]
    · rw [preSave_status]
  · rintro ⟨hpat, hap⟩
    have h2 : acceptedPharmacyIs r.acceptedPharmacy uid = false := by
      cases h : r.acceptedPharmacy with
      | none => rfl
      | some ap => simp [acceptedPharmacyIs, hap ap h]
    simp [updateRequestStatus, hpat, h2]

/-- Witness for the amended C8: patient 1 moves the completed request
`rCompleted` to `preparing` (not a spec edge) and the call succeeds; an
unrelated user 9 is rejected with `Unauthorized`. -/
theorem updateRequestStatus_unvalidated_witness :
    (∃ r', updateRequestStatus 0 1 Status.preparing rCompleted = Except.ok r' ∧
       r'.status =
         (if Status.preparing = Status.open_ ∧ rCompleted.expiresAt < 0 then
            Status.expired
          else Status.preparing)) ∧
    updateRequestStatus 0 9 Status.preparing rCompleted =
      Except.error ReqError.Unauthorized := by
  refine ⟨(updateRequestStatus_unvalidated 0 1 Status.preparing rCompleted).1
      (Or.inl (by decide)), ?_⟩
  exact (updateRequestStatus_unvalidated 0 9 Status.preparing rCompleted).2
    (by constructor
        · decide
        · intro ap hap
          simp only [rCompleted] at hap
          cases hap
          decide)

/-- Claim C10. The validation middleware tests coordinates with JavaScript
falsiness: a create-request body whose location carries latitude 0 or
longitude 0 never validates, and — when the medicines pass their checks —
is rejected with the "Location (latitude and longitude) is required"
response, even though 0 is a legitimate coordinate. -/
theorem validateMedicineRequest_zero_coordinate (body : RequestBody)
    (loc : LocationInput) (hloc : body.location = some loc)
    (h0 : loc.latitude = some 0 ∨ loc.longitude = some 0) :
    validateMedicineRequest body ≠ ValidationResult.ok ∧
    ((body.medicines ≠ [] ∧
        ∀ m ∈ body.medicines, ¬(m.name = "" ∨ m.quantity = 0 ∨ m.quantity ≤ 0)) →
      validateMedicineRequest body = ValidationResult.errLocationRequired) := by
  have hfalsy : (!jsTruthy loc.latitude || !jsTruthy loc.longitude) = true := by
    rcases h0 with h | h <;> simp [h, jsTruthy]
  constructor
  · unfold validateMedicineRequest
    split
    · intro hcon; cases hcon
    · split
      · intro hcon; cases hcon
      · rw [hloc]
        simp only [hfalsy]
        intro hcon
        simp at hcon
  · rintro ⟨hne, hval⟩
    unfold validateMedicineRequest
    rw [if_neg (by simpa using hne), if_neg, hloc]
    · simp only [hfalsy]
      rfl
    · simp only [List.any_eq_true, Bool.or_eq_true, decide_eq_true_eq, not_exists,
        not_and]
      intro m hm
      have := hval m hm
      intro hcon
      rcases hcon with hcon | hcon
      · rcases hcon with h1 | h1
        · exact this (Or.inl h1)
        · exact this (Or.inr (Or.inl h1))
      · exact this (Or.inr (Or.inr hcon))

/-- Witness for C10: a body with one valid medicine and location
`(0, 76.57)` (on the equator) is rejected as missing location. -/
theorem validateMedicineRequest_zero_coordinate_witness :
    validateMedicineRequest
        { medicines := [{ name := "Paracetamol", quantity := 2 }]
          location := some { latitude := some 0, longitude := some (7657/100) } } ≠
      ValidationResult.ok ∧
    validateMedicineRequest
        { medicines := [{ name := "Paracetamol", quantity := 2 }]
          location := some { latitude := some 0, longitude := some (7657/100) } } =
      ValidationResult.errLocationRequired := by
  have h := validateMedicineRequest_zero_coordinate
    { medicines := [{ name := "Paracetamol", quantity := 2 }]
      location := some { latitude := some 0, longitude := some (7657/100) } }
    { latitude := some 0, longitude := some (7657/100) } rfl (Or.inl rfl)
  exact ⟨h.1, h.2 (by decide)⟩

/-- Claim C2. Pharmacy-id uniqueness of a request's response set is an
invariant: starting from a request with pairwise-distinct response
pharmacies, any sequence of lifecycle operations (submits included)
preserves distinctness, and a `submitResponse` from a pharmacy that
already responded to an open request fails with `DuplicateResponse`
(appending nothing, since the handler returns before any mutation). -/
theorem submitResponse_uniqueness (now : ℤ) (ops : List Op) (r : MedicineRequest)
    (hnd : (responsePharmacies r).Nodup) :
    (responsePharmacies (runOps now ops r)).Nodup ∧
    ∀ (pid : ℕ) (meds : List AvailableMedicine),
      r.status = Status.open_ → pid ∈ responsePharmacies r →
      respondToRequest now pid meds r = Except.error ReqError.DuplicateResponse := by
  constructor
  · induction ops generalizing r with
    | nil => exact hnd
    | cons op ops ih =>
      have h1 : runOps now (op :: ops) r = runOps now ops (applyOp now op r) := by
        simp [runOps]
      rw [h1]
      exact ih (applyOp now op r) (applyOp_nodup now op r hnd)
  · intro pid meds hopen hmem
    unfold respondToRequest
    rw [if_neg (by simp [hopen])]
    unfold addResponse
    rw [if_pos (any_pharmacy_of_mem hmem)]

/-- Witness for C2: running two submits (the second a duplicate from
pharmacy 2) on a fresh request keeps the pharmacy list duplicate-free, and
pharmacy 2 re-submitting against `rOpen` (where it already responded)
fails with `DuplicateResponse`. -/
theorem submitResponse_uniqueness_witness :
    (responsePharmacies
        (runOps 0 [Op.submit 2 meds1200, Op.submit 2 meds900]
          (mkRequest 1 100))).Nodup ∧
    respondToRequest 0 2 meds900 rOpen = Except.error ReqError.DuplicateResponse := by
  constructor
  · exact (submitResponse_uniqueness 0 [Op.submit 2 meds1200, Op.submit 2 meds900]
      (mkRequest 1 100) (by decide)).1
  · exact (submitResponse_uniqueness 0 [] rOpen (by decide)).2 2 meds900
      (by decide) (by decide)

/-- Claim C5. On an open request owned by the caller with a response from
the chosen pharmacy, the first `acceptResponse` succeeds; repeating the
identical call against the accepted request fails with `RequestClosed`,
and the failed call leaves the request exactly as the first call left it
(the error path returns before any mutation). -/
theorem acceptPharmacy_second_call_closed (now now2 : ℤ) (uid pid : ℕ)
    (r : MedicineRequest)
    (hopen : r.status = Status.open_)
    (hpat : r.patient = uid)
    (hresp : pid ∈ responsePharmacies r) :
    ∃ res : AcceptResult,
      acceptPharmacyController now uid pid r = Except.ok res ∧
      res.request.status = Status.accepted ∧
      acceptPharmacyController now2 uid pid res.request =
        Except.error ReqError.RequestClosed ∧
      applyOp now2 (Op.accept uid pid) res.request = res.request := by
  have hany := any_pharmacy_of_mem hresp
  unfold acceptPharmacyController acceptPharmacyMethod
  rw [if_neg (by simp [hpat]), if_neg (by simp [hopen]), if_pos hany]
  refine ⟨_, rfl, ?_, ?_, ?_⟩
  · exact preSave_status_of_ne_open now _ (by simp)
  · rw [if_neg (by simp [hpat]), if_pos]
    rw [preSave_status_of_ne_open now _ (by simp)]
    simp
  · have herr : acceptPharmacyController now2 uid pid
        (preSave now
          { r with
            status := Status.accepted
            acceptedPharmacy := some { pharmacy := pid, acceptedAt := now }
            responses := r.responses.map (deactivateUnless pid) }) =
        Except.error ReqError.RequestClosed := by
      unfold acceptPharmacyController
      rw [if_neg (by simp [hpat]), if_pos]
      rw [preSave_status_of_ne_open now _ (by simp)]
      simp
    simp only [applyOp, herr]

/-- Witness for C5: patient 1 accepts pharmacy 2 on `rOpen`; the repeat of
the same call fails with `RequestClosed` and changes nothing. -/
theorem acceptPharmacy_second_call_closed_witness :
    ∃ res : AcceptResult,
      acceptPharmacyController 0 1 2 rOpen = Except.ok res ∧
      res.request.status = Status.accepted ∧
      acceptPharmacyController 1 1 2 res.request =
        Except.error ReqError.RequestClosed ∧
      applyOp 1 (Op.accept 1 2) res.request = res.request :=
  acceptPharmacy_second_call_closed 0 1 1 2 rOpen (by decide) (by decide) (by decide)

lemma combinedActive (pid : ℕ) (x : Response) :
    (recomputeFinalPrice (deactivateUnless pid x)).isActive =
      (decide (x.pharmacy = pid) && x.isActive) := by
  rw [recomputeFinalPrice_isActive, deactivateUnless_isActive]

lemma combinedPharmacy (pid : ℕ) (x : Response) :
    (recomputeFinalPrice (deactivateUnless pid x)).pharmacy = x.pharmacy := by
  rw [recomputeFinalPrice_pharmacy, deactivateUnless_pharmacy]

lemma activeCount_after_deactivate (pid : ℕ) (l : List Response)
    (hact : ∀ resp ∈ l, resp.isActive = true) :
    ((l.map (fun x => recomputeFinalPrice (deactivateUnless pid x))).filter
        (fun resp => resp.isActive)).length =
      (l.map (fun resp => resp.pharmacy)).count pid := by
  induction l with
  | nil => rfl
  | cons x xs ih =>
    have hx : x.isActive = true := hact x (List.mem_cons_self x xs)
    have ihs := ih (fun resp h => hact resp (List.mem_cons_of_mem _ h))
    have hcomb : (deactivateUnless pid x).isActive = decide (x.pharmacy = pid) := by
      rw [deactivateUnless_isActive, hx, Bool.and_true]
    by_cases hp : x.pharmacy = pid
    · simp [List.filter_cons, hcomb, hp, ihs, List.count_cons]
    · simp [List.filter_cons, hcomb, hp, ihs, List.count_cons, Ne.symm hp]

lemma active_implies_chosen (pid : ℕ) (l : List Response) :
    ∀ resp ∈ (l.map (deactivateUnless pid)).map recomputeFinalPrice,
      resp.isActive = true → resp.pharmacy = pid := by
  intro resp hmem hactv
  rcases List.mem_map.mp hmem with ⟨y, hy, rfl⟩
  rcases List.mem_map.mp hy with ⟨x, hx, rfl⟩
  rw [combinedActive] at hactv
  rw [combinedPharmacy]
  exact of_decide_eq_true ((Bool.and_eq_true _ _).mp hactv).1

lemma recomputeFinalPrice_coherent (x : Response) (hd : 0 ≤ x.discount) :
    priceCoherent (recomputeFinalPrice x) := by
  unfold priceCoherent recomputeFinalPrice
  by_cases hdp : x.discount > 0
  · rw [if_pos hdp]
    show x.totalPrice - x.totalPrice * x.discount / 100 =
      x.totalPrice * (1 - x.discount / 100)
    ring
  · rw [if_neg hdp]
    show x.totalPrice = x.totalPrice * (1 - x.discount / 100)
    rw [le_antisymm (not_lt.mp hdp) hd]
    ring

/-- Claim C3, amended. The single-acceptance invariant does hold for the
states `acceptPharmacy` itself produces: if the request's response
pharmacies are pairwise distinct and all its responses are still active,
then after a successful controller-level `acceptPharmacy` the status is
`accepted`, exactly one response has `isActive = true`, and its pharmacy
is the recorded `acceptedPharmacy`. (For `expired` and `cancelled` states
reached without an acceptance the invariant fails, see the
counterexample.) -/
theorem acceptPharmacy_single_active (now : ℤ) (uid pid : ℕ)
    (r : MedicineRequest) (res : AcceptResult)
    (hnd : (responsePharmacies r).Nodup)
    (hact : ∀ resp ∈ r.responses, resp.isActive = true)
    (hok : acceptPharmacyController now uid pid r = Except.ok res) :
    res.request.status = Status.accepted ∧ singleAcceptanceInv res.request := by
  unfold acceptPharmacyController at hok
  split at hok
  · cases hok
  · split at hok
    · cases hok
    · cases hm : acceptPharmacyMethod now pid r with
      | error e => rw [hm] at hok; cases hok
      | ok r2 =>
        rw [hm] at hok
        cases hok
        unfold acceptPharmacyMethod at hm
        split at hm
        · next hany =>
          cases hm
          have hmem : pid ∈ responsePharmacies r := by
            rcases List.any_eq_true.mp hany with ⟨resp, hr, hp⟩
            exact List.mem_map.mpr ⟨resp, hr, of_decide_eq_true hp⟩
          constructor
          · exact preSave_status_of_ne_open now _ (by simp)
          · unfold singleAcceptanceInv
            intro _
            constructor
            · rw [preSave_responses]
              show (((r.responses.map (deactivateUnless pid)).map
                  recomputeFinalPrice).filter (fun resp => resp.isActive)).length = 1
              rw [List.map_map]
              exact (activeCount_after_deactivate pid r.responses hact).trans
                (List.count_eq_one_of_mem hnd hmem)
            · refine ⟨{ pharmacy := pid, acceptedAt := now }, ?_, ?_⟩
              · rw [preSave_acceptedPharmacy]
              · intro resp hmemr hactv
                rw [preSave_responses] at hmemr
                exact active_implies_chosen pid r.responses resp hmemr hactv
        · cases hm

/-- Witness for the amended C3: accepting pharmacy 2 on `rOpen` yields the
accepted request `rAccepted`, which satisfies the single-acceptance
invariant. -/
theorem acceptPharmacy_single_active_witness :
    rAccepted.status = Status.accepted ∧ singleAcceptanceInv rAccepted :=
  acceptPharmacy_single_active 0 1 2 rOpen
    { request := rAccepted, notifiedClosed := [] }
    (by decide) (by decide)
    (by norm_num [acceptPharmacyController, acceptPharmacyMethod, deactivateUnless,
      preSave, recomputeFinalPrice, rOpen, rAccepted, respA, respB])

/-- Claim C6. The price equations: a successful `submitResponse` appends a
response whose `totalPrice` is the sum of the available truthy-priced
medicines, whose `discount` is 5 exactly when that total exceeds 1000 and
0 otherwise, and whose `finalPrice` equals `totalPrice * (1 - discount/100)`
exactly; and the save hook re-establishes that equation for every stored
response with a non-negative discount whenever a request is saved. -/
theorem priceDeterminism (now n : ℤ) (pid : ℕ) (meds : List AvailableMedicine)
    (r r' s : MedicineRequest)
    (hok : respondToRequest now pid meds r = Except.ok r') :
    (∃ respNew, r'.responses.getLast? = some respNew ∧
       respNew.totalPrice = computeTotalPrice meds ∧
       respNew.discount = (if computeTotalPrice meds > 1000 then (5 : ℚ) else 0) ∧
       priceCoherent respNew) ∧
    (∀ resp ∈ (preSave n s).responses, 0 ≤ resp.discount → priceCoherent resp) := by
  constructor
  · unfold respondToRequest at hok
    split at hok
    · cases hok
    · unfold addResponse at hok
      split at hok
      · cases hok
      · cases hok
        refine ⟨recomputeFinalPrice
          { pharmacy := pid
            totalPrice := computeTotalPrice meds
            discount := if computeTotalPrice meds > 1000 then (5 : ℚ) else 0
            finalPrice := computeTotalPrice meds -
              computeTotalPrice meds *
                (if computeTotalPrice meds > 1000 then (5 : ℚ) else 0) / 100
            isActive := true }, ?_, ?_, ?_, ?_⟩
        · rw [preSave_responses]
          show ((r.responses ++ [_]).map recomputeFinalPrice).getLast? = _
          rw [List.map_append, List.map_singleton]
          exact List.getLast?_concat _
        · rw [recomputeFinalPrice_totalPrice]
        · rw [recomputeFinalPrice_discount]
        · refine recomputeFinalPrice_coherent _ ?_
          show (0 : ℚ) ≤ if computeTotalPrice meds > 1000 then (5 : ℚ) else 0
          split <;> norm_num
  · intro resp hmem hd
    rw [preSave_responses] at hmem
    rcases List.mem_map.mp hmem with ⟨x, hx, rfl⟩
    rw [recomputeFinalPrice_discount] at hd
    exact recomputeFinalPrice_coherent x hd

/-- Witness for C6 (the spec's Scenario 2 figures): submitting medicines
totalling 1200 yields a response with discount 5 and final price 1140
(`req1200`), and the save hook keeps every response of `rOpen` (totals
1200 and 900, discounts 5 and 0, final prices 1140 and 900) coherent. -/
theorem priceDeterminism_witness :
    respondToRequest 0 2 meds1200 (mkRequest 1 100) = Except.ok req1200 ∧
    (∃ respNew, req1200.responses.getLast? = some respNew ∧
       respNew.totalPrice = computeTotalPrice meds1200 ∧
       respNew.discount = (if computeTotalPrice meds1200 > 1000 then (5 : ℚ) else 0) ∧
       priceCoherent respNew) ∧
    (∀ resp ∈ (preSave 0 rOpen).responses, 0 ≤ resp.discount → priceCoherent resp) := by
  have hok : respondToRequest 0 2 meds1200 (mkRequest 1 100) = Except.ok req1200 := by
    norm_num [respondToRequest, addResponse, preSave, mkRequest, computeTotalPrice,
      meds1200, jsTruthy, recomputeFinalPrice, req1200]
  have h := priceDeterminism 0 0 2 meds1200 (mkRequest 1 100) req1200 rOpen hok
  exact ⟨hok, h.1, h.2⟩

open Real in
lemma sin_sq_swap (x y : ℝ) :
    Real.sin ((x - y) * π / 180 / 2) * Real.sin ((x - y) * π / 180 / 2) =
      Real.sin ((y - x) * π / 180 / 2) * Real.sin ((y - x) * π / 180 / 2) := by
  have h : (x - y) * π / 180 / 2 = -((y - x) * π / 180 / 2) := by ring
  rw [h, Real.sin_neg]
  ring

open Real in
lemma cos_sin_sq_swap (a b x y : ℝ) :
    Real.cos (a * π / 180) * Real.cos (b * π / 180) *
        Real.sin ((y - x) * π / 180 / 2) * Real.sin ((y - x) * π / 180 / 2) =
      Real.cos (b * π / 180) * Real.cos (a * π / 180) *
        Real.sin ((x - y) * π / 180 / 2) * Real.sin ((x - y) * π / 180 / 2) := by
  have h : (y - x) * π / 180 / 2 = -((x - y) * π / 180 / 2) := by ring
  rw [h, Real.sin_neg]
  ring

open Real in
/-- Claim C9. The haversine helper is symmetric in its two coordinate
pairs, returns 0 for identical points, equals the Earth radius 6371 km
times the haversine central angle, and the distance shown to callers is
the exact distance rounded to 2 decimal places (so it differs from it by
at most 1/200 km). -/
theorem calculateDistance_props :
    (∀ lat1 lon1 lat2 lon2 : ℝ,
       calculateDistance lat1 lon1 lat2 lon2 = calculateDistance lat2 lon2 lat1 lon1) ∧
    (∀ lat lon : ℝ, calculateDistance lat lon lat lon = 0) ∧
    (∀ lat1 lon1 lat2 lon2 : ℝ,
       calculateDistance lat1 lon1 lat2 lon2 =
         6371 * centralAngle lat1 lon1 lat2 lon2) ∧
    (∀ lat1 lon1 lat2 lon2 : ℝ,
       |shownDistance lat1 lon1 lat2 lon2 - calculateDistance lat1 lon1 lat2 lon2| ≤
         1 / 200) := by
  refine ⟨?_, ?_, ?_, ?_⟩
  · intro lat1 lon1 lat2 lon2
    unfold calculateDistance
    dsimp only
    rw [sin_sq_swap lat2 lat1, cos_sin_sq_swap lat1 lat2 lon1 lon2]
  · intro lat lon
    unfold calculateDistance
    dsimp only
    have h1 : (lat - lat) * π / 180 / 2 = 0 := by ring
    have h2 : (lon - lon) * π / 180 / 2 = 0 := by ring
    rw [h1, h2, Real.sin_zero]
    norm_num [jsAtan2, Real.arctan_zero]
  · intro lat1 lon1 lat2 lon2
    rfl
  · intro lat1 lon1 lat2 lon2
    unfold shownDistance
    have hr := abs_sub_round (calculateDistance lat1 lon1 lat2 lon2 * 100)
    have heq : (round (calculateDistance lat1 lon1 lat2 lon2 * 100) : ℝ) / 100 -
        calculateDistance lat1 lon1 lat2 lon2 =
        ((round (calculateDistance lat1 lon1 lat2 lon2 * 100) : ℝ) -
          calculateDistance lat1 lon1 lat2 lon2 * 100) / 100 := by
      ring
    rw [heq, abs_div, abs_of_pos (by norm_num : (0 : ℝ) < 100), abs_sub_comm]
    linarith

end Meditatva
